import Mathlib

/-
  Shallow embedding of the ML trip-inference subsystem of the Travelogy2
  repository:
    - src/backend/apps/trips/ml_services/mode_detector.py        (ModeDetector)
    - src/backend/apps/trips/ml_services/advanced_mode_detector.py
      (AdvancedModeDetector)
    - src/backend/apps/trips/ml_services/purpose_predictor.py    (PurposePredictor)

  Real-valued geometry (haversine, bearings) is embedded over ℝ, with
  math.atan2 modelled by Complex.arg.  The rule-based scorers operate on
  plain numbers only and are embedded over ℚ, so they are executable.
  Python dict iteration order is insertion order; `max(d, key=d.get)` and
  np.argmax return the FIRST maximal element, which the embeddings mirror.
-/

/-- Python float modulo `a % b` (sign of result follows the divisor):
`a - b * floor (a / b)`. -/
noncomputable def pymod (a b : ℝ) : ℝ := a - b * ⌊a / b⌋

/-- `math.atan2 y x`, modelled as the argument of the complex number
`x + y*i`, which lies in (-pi, pi]. -/
noncomputable def atan2 (y x : ℝ) : ℝ := Complex.arg ⟨x, y⟩

/-- `math.radians` : degrees to radians. -/
noncomputable def radiansR (d : ℝ) : ℝ := d * (Real.pi / 180)

/-- `math.degrees` : radians to degrees. -/
noncomputable def degreesR (r : ℝ) : ℝ := r * (180 / Real.pi)

/-- A GPS waypoint: latitude, longitude (degrees) and a timestamp in
seconds (timestamps arrive already parsed; `_parse_timestamp` handling of
strings is outside the numeric model). -/
structure Waypoint where
  lat : ℝ
  lng : ℝ
  t : ℝ

instance : Inhabited Waypoint := ⟨⟨0, 0, 0⟩⟩

/-- `ModeDetector._haversine_distance` (mode_detector.py lines 166-178):
great-circle distance in km, Earth radius 6371, with
`c = 2 * atan2 (sqrt a) (sqrt (1 - a))`. -/
noncomputable def md_haversine_distance (lat1 lon1 lat2 lon2 : ℝ) : ℝ :=
  let dlat := radiansR (lat2 - lat1)
  let dlon := radiansR (lon2 - lon1)
  let a := Real.sin (dlat / 2) * Real.sin (dlat / 2) +
    Real.cos (radiansR lat1) * Real.cos (radiansR lat2) *
    Real.sin (dlon / 2) * Real.sin (dlon / 2)
  let c := 2 * atan2 (Real.sqrt a) (Real.sqrt (1 - a))
  6371 * c

/-- `AdvancedModeDetector._haversine_distance` (advanced_mode_detector.py
lines 678-690): same haversine `a`, but `c = 2 * arcsin (sqrt a)`. -/
noncomputable def amd_haversine_distance (lat1 lon1 lat2 lon2 : ℝ) : ℝ :=
  let rlat1 := radiansR lat1
  let rlat2 := radiansR lat2
  let dlat := rlat2 - rlat1
  let dlon := radiansR lon2 - radiansR lon1
  let a := Real.sin (dlat / 2) ^ 2 +
    Real.cos rlat1 * Real.cos rlat2 * Real.sin (dlon / 2) ^ 2
  let c := 2 * Real.arcsin (Real.sqrt a)
  6371 * c

/-- `ModeDetector._calculate_bearing` (mode_detector.py lines 180-192):
returns `math.degrees (math.atan2 y x)` with NO normalisation, hence a
value in (-180, 180]. -/
noncomputable def md_calculate_bearing (p1 p2 : Waypoint) : ℝ :=
  let lat1 := radiansR p1.lat
  let lon1 := radiansR p1.lng
  let lat2 := radiansR p2.lat
  let lon2 := radiansR p2.lng
  let dlon := lon2 - lon1
  let y := Real.sin dlon * Real.cos lat2
  let x := Real.cos lat1 * Real.sin lat2 -
    Real.sin lat1 * Real.cos lat2 * Real.cos dlon
  degreesR (atan2 y x)

/-- `AdvancedModeDetector._calculate_bearing` (advanced_mode_detector.py
lines 692-705): same formula followed by `(bearing + 360) % 360`. -/
noncomputable def amd_calculate_bearing (p1 p2 : Waypoint) : ℝ :=
  let lat1 := radiansR p1.lat
  let lon1 := radiansR p1.lng
  let lat2 := radiansR p2.lat
  let lon2 := radiansR p2.lng
  let dlon := lon2 - lon1
  let y := Real.sin dlon * Real.cos lat2
  let x := Real.cos lat1 * Real.sin lat2 -
    Real.sin lat1 * Real.cos lat2 * Real.cos dlon
  pymod (degreesR (atan2 y x) + 360) 360

/-
  Trip segmentation.  Both `ModeDetector.detect_trip_segments`
  (mode_detector.py lines 194-258) and
  `AdvancedModeDetector.detect_trip_segments` (advanced_mode_detector.py
  lines 555-641) run the same two-state MOVING/STOPPED scan over steps
  i = 1 .. len-1; they differ only in how a step is classified
  (the simple tier maps a non-positive time delta to speed 0, i.e. a stop;
  the advanced tier skips such steps entirely) and in how an emitted
  index pair is enriched into a segment record.  The scan is embedded
  once, over a timestamp function, a threshold, and a per-step
  classification; each tier instantiates it with its own classification
  computed from its own haversine.
-/

/-- Classification of scan step i (the pair waypoint i-1 → waypoint i). -/
inductive StepKind
  | skipk
  | stopk
  | movek
deriving DecidableEq

/-- Scan state: emitted index pairs, start of the current open segment,
whether we are inside a low-speed run, and the recorded stop start time
(`None` when not in a stop). -/
structure ScanSt where
  segs : List (ℕ × ℕ)
  c : ℕ
  inStop : Bool
  stopStart : Option ℝ

/-- One iteration of the segmentation loop at step `i` (1-based), shared
by both tiers.  Mirrors the loop body: entering a stop records
`stop_start_time = timestamp (i-1)`; leaving a stop with
`stop_duration ≥ min_stop_duration` closes the segment `(c, i-1)` —
but only when `c < i - 1` — and restarts at `c = i`. -/
noncomputable def scanStep (tms : ℕ → ℝ) (minD : ℝ) (kind : ℕ → StepKind)
    (st : ScanSt) (i : ℕ) : ScanSt :=
  match kind i with
  | .skipk => st
  | .stopk =>
      if st.inStop then st
      else { st with inStop := true, stopStart := some (tms (i - 1)) }
  | .movek =>
      if st.inStop then
        let t0 := st.stopStart.getD (tms (i - 1))
        let dur := tms (i - 1) - t0
        if minD ≤ dur then
          { segs := if st.c < i - 1 then st.segs ++ [(st.c, i - 1)] else st.segs,
            c := i, inStop := false, stopStart := none }
        else { st with inStop := false, stopStart := none }
      else st

/-- Run the segmentation loop over steps 1 .. n-1. -/
noncomputable def scanRun (tms : ℕ → ℝ) (minD : ℝ) (kind : ℕ → StepKind)
    (n : ℕ) : ScanSt :=
  (List.range' 1 (n - 1)).foldl (scanStep tms minD kind) ⟨[], 0, false, none⟩

/-- The emitted list of (start_idx, end_idx) pairs: the loop result plus
the final open segment, which is appended only when `c < n - 1`. -/
noncomputable def segIndexList (tms : ℕ → ℝ) (minD : ℝ) (kind : ℕ → StepKind)
    (n : ℕ) : List (ℕ × ℕ) :=
  let st := scanRun tms minD kind n
  if st.c < n - 1 then st.segs ++ [(st.c, n - 1)] else st.segs

/-- Timestamp of waypoint `i` of a list (out-of-range reads give the
default waypoint; the loops never index out of range). -/
def wsT (ws : List Waypoint) (i : ℕ) : ℝ := (ws.getD i default).t

/-- Speed in km/h attributed to step i by the simple tier
(mode_detector.py lines 218-224): `(distance / time_diff) * 3600` when
`time_diff > 0`, else 0. -/
noncomputable def md_step_speed (ws : List Waypoint) (i : ℕ) : ℝ :=
  let p := ws.getD (i - 1) default
  let q := ws.getD i default
  let d := md_haversine_distance p.lat p.lng q.lat q.lng
  let td := q.t - p.t
  if 0 < td then d / td * 3600 else 0

/-- Step classification of the simple tier: `speed < 1` is a stop,
anything else moves (a non-positive time delta gives speed 0, a stop). -/
noncomputable def md_step_kind (ws : List Waypoint) (i : ℕ) : StepKind :=
  if md_step_speed ws i < 1 then .stopk else .movek

/-- Step classification of the advanced tier (advanced_mode_detector.py
lines 592-625): steps with non-positive time delta are skipped outright;
otherwise `speed < 1` is a stop. -/
noncomputable def amd_step_kind (ws : List Waypoint) (i : ℕ) : StepKind :=
  let p := ws.getD (i - 1) default
  let q := ws.getD i default
  let td := q.t - p.t
  if 0 < td then
    (if amd_haversine_distance p.lat p.lng q.lat q.lng / td * 3600 < 1
     then .stopk else .movek)
  else .skipk

/-- A segment as returned by `ModeDetector.detect_trip_segments`:
index pair plus the waypoint slice `waypoints[start_idx : end_idx + 1]`. -/
structure Seg where
  start_idx : ℕ
  end_idx : ℕ
  waypoints : List Waypoint

/-- `ModeDetector.detect_trip_segments` (mode_detector.py lines 194-258).
Fewer than 2 waypoints return no segments at all. -/
noncomputable def md_detect_trip_segments (ws : List Waypoint) (minStop : ℝ) :
    List Seg :=
  if ws.length < 2 then []
  else
    (segIndexList (wsT ws) minStop (md_step_kind ws) ws.length).map
      (fun p => { start_idx := p.1, end_idx := p.2,
                  waypoints := (ws.drop p.1).take (p.2 + 1 - p.1) })

/-- A segment as returned by `AdvancedModeDetector.detect_trip_segments`.
`end_idx` is an integer because the degenerate branch stores
`len(waypoints) - 1`, which is -1 for the empty input.  The
`start_time` and `end_time` fields of the source record are the
timestamps of the first and last waypoint of the slice and are omitted
here. -/
structure AdvSeg where
  start_idx : ℤ
  end_idx : ℤ
  waypoints : List Waypoint
  predicted_mode : Option String

/-- `AdvancedModeDetector.detect_trip_segments` (advanced_mode_detector.py
lines 555-641).  Fewer than 10 waypoints short-circuit to one segment
covering the whole input with no mode; otherwise the scan runs and each
emitted segment is enriched with a per-segment predicted mode.  The
per-segment classifier `_predict_segment_mode` (which feeds the slice
through the full predict_mode stack) is passed in as a function. -/
noncomputable def amd_detect_trip_segments (ws : List Waypoint) (minStop : ℝ)
    (predictSegMode : List Waypoint → Option String) : List AdvSeg :=
  if ws.length < 10 then
    [{ start_idx := 0, end_idx := (ws.length : ℤ) - 1,
       waypoints := ws, predicted_mode := none }]
  else
    (segIndexList (wsT ws) minStop (amd_step_kind ws) ws.length).map
      (fun p =>
        let slice := (ws.drop p.1).take (p.2 + 1 - p.1)
        { start_idx := (p.1 : ℤ), end_idx := (p.2 : ℤ),
          waypoints := slice, predicted_mode := predictSegMode slice })

/-- Decides whether a list of (start, end) index pairs forms a
gap-free, overlap-free, ordered chain: the first pair starts at `s`,
each pair satisfies start ≤ end, each subsequent pair starts right after
the previous end, and the chain finishes exactly at `c - 1` (i.e. the
pairs partition the index interval from `s` to `c - 1`). -/
def chainFromB : ℕ → List (ℕ × ℕ) → ℕ → Bool
  | s, [], c => c == s
  | s, p :: rest, c =>
      (p.1 == s) && (decide (p.1 ≤ p.2)) && chainFromB (p.2 + 1) rest c

/-- The loop invariant of the segmentation scan, at the point where step
`i` is about to be processed: the emitted pairs chain from 0 up to `c - 1`,
the current segment start is at most `i - 1`, and while inside a stop the
current segment start is at most `i - 2` (the stop was entered at an
earlier step, after the segment had already begun). -/
def ScanInv (st : ScanSt) (i : ℕ) : Prop :=
  chainFromB 0 st.segs st.c = true ∧ st.c + 1 ≤ i ∧
    (st.inStop = true → st.c + 2 ≤ i)

/-
  Fallback-tier mode classification, `ModeDetector.predict_mode`
  (mode_detector.py lines 24-100).  All arithmetic here is plain field
  arithmetic on numbers, embedded over ℚ.  The per-mode jitter
  `random.uniform(0.8, 1.2)` drawn inside the loop at lines 86-87 is an
  unseeded random draw; it is modelled as an explicit function from the
  mode name to the drawn factor, so that properties can quantify over
  (or exhibit specific) draws.
-/

/-- Speed envelope and base prior of one mode (the `__init__` table of
`ModeDetector`). -/
structure ModeConfig where
  min_speed : ℚ
  max_speed : ℚ
  base_prob : ℚ

/-- The `self.mode_probabilities` table, in Python dict insertion order
(mode_detector.py lines 15-22). -/
def mode_probabilities : List (String × ModeConfig) :=
  [("walk", ⟨0, 8, 3/10⟩),
   ("cycle", ⟨5, 25, 1/5⟩),
   ("bike", ⟨15, 60, 1/10⟩),
   ("car", ⟨10, 120, 1/4⟩),
   ("bus", ⟨5, 50, 1/10⟩),
   ("metro", ⟨20, 80, 1/20⟩)]

/-- Input record for `predict_mode`: the three numeric fields actually
read, optional because the source uses `.get` with defaults 0, 1 and 12
(waypoints and weather are read but never used by the scorer). -/
structure TripData where
  distance_km : Option ℚ
  duration_minutes : Option ℚ
  time_of_day : Option ℚ

/-- Pre-jitter score of one mode (the body of the `for mode, config`
loop, mode_detector.py lines 51-83): base prior × speed fit, then the
distance-based `elif` chain and the time-of-day multipliers for public
transport. -/
def md_mode_score (mode : String) (config : ModeConfig)
    (avgSpeed distance timeOfDay : ℚ) : ℚ :=
  let speedScore :=
    if config.min_speed ≤ avgSpeed ∧ avgSpeed ≤ config.max_speed then 1
    else if avgSpeed < config.min_speed then
      max 0 (1 - (config.min_speed - avgSpeed) / config.min_speed)
    else
      max 0 (1 - (avgSpeed - config.max_speed) / config.max_speed)
  let score := config.base_prob * speedScore
  let score :=
    if mode = "walk" ∧ distance > 5 then score * (1/10)
    else if mode = "cycle" ∧ distance > 20 then score * (3/10)
    else if (mode = "bus" ∨ mode = "metro") ∧ distance < 1 then score * (1/5)
    else score
  if mode = "bus" ∨ mode = "metro" then
    if (7 ≤ timeOfDay ∧ timeOfDay ≤ 9) ∨ (17 ≤ timeOfDay ∧ timeOfDay ≤ 19) then
      score * (3/2)
    else if 22 ≤ timeOfDay ∨ timeOfDay ≤ 5 then score * (3/10)
    else score
  else score

/-- First maximal element of a nonempty scored list, as computed by
Python `max(d, key=d.get)` over a dict in insertion order (ties keep the
earlier entry). -/
def argmaxFirst (p : String × ℚ) (rest : List (String × ℚ)) : String × ℚ :=
  rest.foldl (fun best q => if q.2 > best.2 then q else best) p

/-- `ModeDetector.predict_mode` (mode_detector.py lines 24-100): score
every mode, multiply by the per-mode jitter draw, take the arg-max,
normalise its score into a confidence and clamp it to [0.1, 0.95]. -/
def md_predict_mode (trip : TripData) (jitter : String → ℚ) : String × ℚ :=
  let distance := trip.distance_km.getD 0
  let duration := trip.duration_minutes.getD 1
  let timeOfDay := trip.time_of_day.getD 12
  let avgSpeed := if duration > 0 then distance / duration * 60 else 0
  let scores := mode_probabilities.map
    (fun mc => (mc.1, md_mode_score mc.1 mc.2 avgSpeed distance timeOfDay * jitter mc.1))
  let best :=
    match scores with
    | [] => ("", 0)
    | p :: rest => argmaxFirst p rest
  let total := (scores.map Prod.snd).sum
  let confidence := if total > 0 then best.2 / total else 1/2
  (best.1, max (min confidence (19/20)) (1/10))

/-
  Trip purpose prediction, `PurposePredictor.predict_purpose`
  (purpose_predictor.py lines 58-118), with its four factor functions.
  Arithmetic is over ℚ.  The per-purpose jitter `random.uniform(0.7, 1.3)`
  (lines 104-105) is again modelled as an explicit draw function.  The
  geodesic distance of the external geopy library (used only inside the
  history factor) is passed in as a function returning metres.
-/

/-- The slice of a datetime actually read by the predictors: `hour` and
`weekday()` (0 = Monday .. 6 = Sunday). -/
structure DateTime where
  hour : ℕ
  weekday : ℕ

/-- One entry of `self.time_patterns` (purpose_predictor.py lines 15-46).
The Python dicts carry either a weekend_boost or a weekend_penalty key;
both are optional fields here and the lookup order of
`_calculate_time_score` is preserved. -/
structure TimePattern where
  peak_hours : List (ℕ × ℕ)
  low_hours : List (ℕ × ℕ)
  weekday_boost : Option ℚ
  weekend_boost : Option ℚ
  weekend_penalty : Option ℚ

/-- `self.time_patterns`, in insertion order. -/
def time_patterns : List (String × TimePattern) :=
  [("work", ⟨[(7, 9), (17, 19)], [(22, 6)], some (3/2), none, some (3/10)⟩),
   ("school", ⟨[(7, 9), (15, 17)], [(19, 7)], some 2, none, some (1/10)⟩),
   ("shopping", ⟨[(10, 12), (14, 18)], [(0, 7)], some 1, some (13/10), none⟩),
   ("leisure", ⟨[(10, 22)], [(0, 8)], some (4/5), some (3/2), none⟩),
   ("social", ⟨[(18, 23)], [(5, 10)], some 1, some (7/5), none⟩)]

/-- `self.location_keywords` (purpose_predictor.py lines 49-56). -/
def location_keywords : List (String × List String) :=
  [("work", ["office", "business", "corporate", "company", "headquarters", "building"]),
   ("school", ["school", "university", "college", "campus", "education", "library"]),
   ("shopping", ["mall", "store", "shop", "market", "grocery", "supermarket", "retail"]),
   ("leisure", ["park", "cinema", "theater", "museum", "beach", "restaurant", "cafe"]),
   ("social", ["friend", "family", "home", "residence", "house", "apartment"]),
   ("medical", ["hospital", "clinic", "doctor", "medical", "pharmacy", "health"])]

/-- Whether `pat` occurs as a prefix of `hay` (character lists). -/
def startsWithList : List Char → List Char → Bool
  | [], _ => true
  | _ :: _, [] => false
  | a :: as, b :: bs => a == b && startsWithList as bs

/-- Python substring containment `pat in hay`. -/
def containsSub (hay pat : List Char) : Bool :=
  match hay with
  | [] => pat.isEmpty
  | _ :: rest => startsWithList pat hay || containsSub rest pat

/-- Python `keyword in address` for strings. -/
def strHas (address keyword : String) : Bool :=
  containsSub address.data keyword.data

/-- `PurposePredictor._calculate_time_score` (purpose_predictor.py lines
120-155): 0.5 when there is no start time or no pattern for the purpose;
otherwise base 0.3, raised to 1.0 in a peak window, damped ×0.3 per
matching low-activity window (overnight windows wrap), then the
weekend/weekday multiplier. -/
def pp_calculate_time_score (purpose : String) (startTime : Option DateTime)
    (weekday : ℕ) : ℚ :=
  match startTime, time_patterns.lookup purpose with
  | some st, some pattern =>
      let hour := st.hour
      let score : ℚ :=
        if pattern.peak_hours.any (fun p => decide (p.1 ≤ hour) && decide (hour ≤ p.2))
        then 1 else 3/10
      let score := pattern.low_hours.foldl (fun sc p =>
        if p.1 > p.2 then
          (if hour ≥ p.1 ∨ hour ≤ p.2 then sc * (3/10) else sc)
        else
          (if p.1 ≤ hour ∧ hour ≤ p.2 then sc * (3/10) else sc)) score
      if weekday ≥ 5 then
        match pattern.weekend_boost with
        | some b => score * b
        | none =>
            match pattern.weekend_penalty with
            | some pen => score * pen
            | none => score
      else
        match pattern.weekday_boost with
        | some b => score * b
        | none => score
  | _, _ => 1/2

/-- `PurposePredictor._calculate_location_score` (purpose_predictor.py
lines 157-176): keyword matches in the destination address boost the
score, matches of other purposes' keywords penalise it, and the result
is floored at 0.1.  The origin address parameter is accepted and ignored,
exactly as in the source body. -/
def pp_calculate_location_score (purpose destAddress originAddress : String) : ℚ :=
  let _ := originAddress
  match location_keywords.lookup purpose with
  | none => max 1 (1/10)
  | some keywords =>
      let destMatches := (keywords.filter (fun k => strHas destAddress k)).length
      let score : ℚ := if destMatches > 0 then 1 * (1 + (destMatches : ℚ) * (1/2)) else 1
      let score := location_keywords.foldl (fun sc kp =>
        if kp.1 ≠ purpose then
          let conflicts := (kp.2.filter (fun k => strHas destAddress k)).length
          if conflicts > 0 then sc * (1 - (conflicts : ℚ) * (1/5)) else sc
        else sc) score
      max score (1/10)

/-- `PurposePredictor._calculate_mode_score` (purpose_predictor.py lines
178-206): fixed purpose × mode affinity table, defaulting to 1.0. -/
def pp_calculate_mode_score (purpose transportMode : String) : ℚ :=
  let mode_preferences : List (String × List (String × ℚ)) :=
    [("work", [("car", 6/5), ("bus", 13/10), ("metro", 13/10), ("cycle", 11/10),
               ("walk", 4/5), ("taxi", 9/10)]),
     ("school", [("bus", 7/5), ("metro", 13/10), ("cycle", 6/5), ("walk", 11/10),
                 ("car", 4/5), ("taxi", 7/10)]),
     ("shopping", [("car", 13/10), ("bus", 11/10), ("walk", 6/5), ("taxi", 11/10),
                   ("cycle", 4/5), ("metro", 9/10)]),
     ("leisure", [("walk", 6/5), ("cycle", 13/10), ("car", 11/10), ("taxi", 1),
                  ("bus", 9/10), ("metro", 9/10)]),
     ("social", [("car", 6/5), ("taxi", 13/10), ("walk", 11/10), ("bus", 1),
                 ("cycle", 9/10), ("metro", 1)])]
  match mode_preferences.lookup purpose with
  | some prefs =>
      match prefs.lookup transportMode with
      | some v => v
      | none => 1
  | none => 1

/-- A prior trip from the user history, with the fields the history
factor reads. -/
structure HistTrip where
  start_time : Option DateTime
  purpose : Option String
  dest_lat : ℚ
  dest_lng : ℚ

/-- Input record for `predict_purpose`. -/
structure PurposeTrip where
  start_time : Option DateTime
  weekday : Option ℕ
  dest_address : Option String
  origin_address : Option String
  transport_mode : Option String
  dest_lat : Option ℚ
  dest_lng : Option ℚ

/-- `PurposePredictor._calculate_history_score` (purpose_predictor.py
lines 208-243).  `geod` is the external geodesic distance in metres;
`nowHour` stands for `datetime.now().hour`, the default used when a trip
has no start time. -/
def pp_calculate_history_score (geod : ℚ → ℚ → ℚ → ℚ → ℚ) (nowHour : ℕ)
    (purpose : String) (cur : PurposeTrip) (hist : List HistTrip) : ℚ :=
  if hist.isEmpty then 1
  else
    let curHour := (cur.start_time.map DateTime.hour).getD nowHour
    let curLat := cur.dest_lat.getD 0
    let curLng := cur.dest_lng.getD 0
    let similar := hist.filter (fun t =>
      let tHour := (t.start_time.map DateTime.hour).getD nowHour
      decide ((tHour : ℤ) - (curHour : ℤ) ≤ 2 ∧ (curHour : ℤ) - (tHour : ℤ) ≤ 2) &&
        (decide (curLat ≠ 0) && decide (t.dest_lat ≠ 0) &&
          decide (geod curLat curLng t.dest_lat t.dest_lng ≤ 500)))
    if similar.isEmpty then 1
    else
      let count := (similar.filter (fun t => t.purpose.getD "other" == purpose)).length
      if count > 0 then 1 + (count : ℚ) / (similar.length : ℚ) else 4/5

/-- `PurposePredictor.predict_purpose` (purpose_predictor.py lines
58-118): multiply the four factors for each purpose with a time pattern,
add the flat 0.1 candidates, apply the per-purpose jitter draw, take the
arg-max and clamp the normalised confidence to [0.2, 0.9]. -/
def pp_predict_purpose (geod : ℚ → ℚ → ℚ → ℚ → ℚ) (nowHour : ℕ)
    (trip : PurposeTrip) (userHistory : List HistTrip)
    (jitter : String → ℚ) : String × ℚ :=
  let startTime := trip.start_time
  let weekday := trip.weekday.getD
    (match startTime with | some st => st.weekday | none => 0)
  let destAddress := (trip.dest_address.getD "").toLower
  let originAddress := (trip.origin_address.getD "").toLower
  let transportMode := trip.transport_mode.getD "walk"
  let base := time_patterns.map (fun pp =>
    let s := pp_calculate_time_score pp.1 startTime weekday
    let s := s * pp_calculate_location_score pp.1 destAddress originAddress
    let s := s * pp_calculate_mode_score pp.1 transportMode
    let s := if userHistory.isEmpty then s
      else s * pp_calculate_history_score geod nowHour pp.1 trip userHistory
    (pp.1, s))
  let others := (["medical", "business", "exercise", "other"].filter
    (fun p => decide (¬ (base.map Prod.fst).contains p))).map
    (fun p => (p, (1/10 : ℚ)))
  let scores := (base ++ others).map (fun p => (p.1, p.2 * jitter p.1))
  let best :=
    match scores with
    | [] => ("", 0)
    | p :: rest => argmaxFirst p rest
  let total := (scores.map Prod.snd).sum
  let confidence := if total > 0 then best.2 / total else 3/10
  (best.1, max (min confidence (9/10)) (1/5))

/-
  Ensemble-tier prediction and training entry point of
  AdvancedModeDetector.  The two trained sklearn/xgboost models are
  external artifacts: their per-class probability outputs for the current
  input enter the embedding as explicit lists, and the class label list
  is the TRANSPORT_MODES configuration of settings.py.
-/

/-- `settings.ML_CONFIG['TRANSPORT_MODES']` (settings.py line 483). -/
def transport_modes : List String := ["walk", "bike", "car", "bus", "metro", "train"]

/-- `settings.ML_CONFIG['FEATURE_COLUMNS']` (settings.py lines 477-481). -/
def feature_columns : List String :=
  ["distance_km", "duration_minutes", "avg_speed", "max_speed",
   "stops_count", "direction_changes", "time_of_day", "day_of_week",
   "weather_temp", "weather_condition", "route_type"]

/-- `np.argmax`: index of the first maximal element. -/
def argmaxIdxAux : List ℚ → ℕ → ℕ → ℚ → ℕ
  | [], _, bi, _ => bi
  | x :: rest, i, bi, bv =>
      if x > bv then argmaxIdxAux rest (i + 1) i x
      else argmaxIdxAux rest (i + 1) bi bv

/-- `np.argmax` over a list (0 on the empty list, which `predict_proba`
never returns). -/
def argmaxIdx : List ℚ → ℕ
  | [] => 0
  | x :: rest => argmaxIdxAux rest 1 0 x

/-- The fixed ensemble blend `0.6 * rf_proba + 0.4 * xgb_proba`
(advanced_mode_detector.py line 237). -/
def ensembleBlend (rf xgb : List ℚ) : List ℚ :=
  List.zipWith (fun a b => 3/5 * a + 2/5 * b) rf xgb

/-- `AdvancedModeDetector.predict_mode` (advanced_mode_detector.py lines
212-267), modelled as the triple (predicted mode, confidence, the
`mode_probabilities` dictionary as an association list).  When no models
are loaded (or a model raised, which takes the same path), the base
detector's result is returned with a SINGLE-entry probability dict
`{mode: confidence}` (lines 226-227).  When models are loaded, the blend
of the two per-class probability vectors is arg-maxed and the full
per-mode dictionary is emitted (lines 229-257). -/
def amd_predict_mode (modelsLoaded : Bool) (rfProba xgbProba : List ℚ)
    (trip : TripData) (jitter : String → ℚ) : String × ℚ × List (String × ℚ) :=
  if modelsLoaded then
    let ensembleProba := ensembleBlend rfProba xgbProba
    let idx := argmaxIdx ensembleProba
    let predictedMode := transport_modes.getD idx ""
    let confidence := ensembleProba.getD idx 0
    let modeProbs := transport_modes.zip ensembleProba
    (predictedMode, confidence, modeProbs)
  else
    let r := md_predict_mode trip jitter
    (r.1, r.2, [(r.1, r.2)])

/-- A training report: the `status` and `message` fields of the dict
returned by `train_models`. -/
structure TrainReport where
  status : String
  message : String

/-- The ModelBundle state that `train_models` may replace: whether
trained models are loaded (which selects the prediction tier). -/
structure Bundle where
  loaded : Bool

/-- Tier selected by a bundle on subsequent predictions. -/
def tierUsed (b : Bundle) : String := if b.loaded then "ensemble" else "fallback"

/-- `AdvancedModeDetector.train_models` (advanced_mode_detector.py lines
374-553), up to its guard clauses.  The body past the guards (sklearn
fitting, evaluation and persistence) is external computation and enters
as the function `doTrain`; the embedding shows that the guards return
before any state is touched: training disabled returns status "skipped",
fewer than 50 samples (or no samples) returns status "error" with the
insufficient-data message, and both leave the bundle unchanged. -/
def amd_train_models {α : Type} (enabled : Bool) (trainingData : List α)
    (bundle : Bundle) (doTrain : List α → Bundle → TrainReport × Bundle) :
    TrainReport × Bundle :=
  if ¬ enabled then
    ({ status := "skipped", message := "ML training disabled in settings" }, bundle)
  else if trainingData.isEmpty ∨ trainingData.length < 50 then
    ({ status := "error",
       message := "Not enough training data (min 50 samples required)" }, bundle)
  else doTrain trainingData bundle

/-
  Waypoint movement analysis: `ModeDetector.analyze_waypoints`
  (mode_detector.py lines 102-164) and
  `AdvancedModeDetector.analyze_waypoints` (advanced_mode_detector.py
  lines 269-372), embedded over ℝ with their per-tier haversine and
  bearing functions.
-/

/-- Python `max(l)` for a nonempty list (callers guard emptiness). -/
def listMax : List ℝ → ℝ
  | [] => 0
  | x :: xs => xs.foldl max x

/-- Python `np.mean(l) if l else 0`. -/
noncomputable def listMean (l : List ℝ) : ℝ :=
  if l.isEmpty then 0 else l.sum / (l.length : ℝ)

/-- The speed/stop scan of the simple analyzer (mode_detector.py lines
125-143): per consecutive pair, a positive elapsed time contributes one
speed sample, and a sample below 1 km/h counts one stop. -/
noncomputable def md_speed_scan (ws : List Waypoint) : List ℝ × ℕ :=
  (List.range' 1 (ws.length - 1)).foldl
    (fun acc i =>
      let p := ws.getD (i - 1) default
      let q := ws.getD i default
      let d := md_haversine_distance p.lat p.lng q.lat q.lng
      let tdh := (q.t - p.t) / 3600
      if 0 < tdh then
        let speed := d / tdh
        (acc.1 ++ [speed], if speed < 1 then acc.2 + 1 else acc.2)
      else acc)
    ([], 0)

/-- Absolute bearing difference folded to at most 180 degrees
(mode_detector.py lines 151-153). -/
noncomputable def angleDiff (b1 b2 : ℝ) : ℝ :=
  let ad := |b2 - b1|
  if ad > 180 then 360 - ad else ad

/-- Direction-change count of the simple analyzer (mode_detector.py
lines 146-156): for every consecutive bearing pair, a folded difference
above 45 degrees counts one change. -/
noncomputable def md_direction_changes (ws : List Waypoint) : ℕ :=
  (List.range' 2 (ws.length - 2)).foldl
    (fun n i =>
      let b1 := md_calculate_bearing (ws.getD (i - 2) default) (ws.getD (i - 1) default)
      let b2 := md_calculate_bearing (ws.getD (i - 1) default) (ws.getD i default)
      if angleDiff b1 b2 > 45 then n + 1 else n)
    0

/-- Result record of `ModeDetector.analyze_waypoints`. -/
structure MDStats where
  avg_speed : ℝ
  max_speed : ℝ
  stops_count : ℕ
  direction_changes : ℕ
  smoothness_score : ℝ

/-- `ModeDetector.analyze_waypoints` (mode_detector.py lines 102-164).
Note: its smoothness score is `1 / (1 + 0.1 * direction_changes)` — the
stop count does NOT enter, and no clamping is applied. -/
noncomputable def md_analyze_waypoints (ws : List Waypoint) : MDStats :=
  if ws.length < 2 then ⟨0, 0, 0, 0, 1/2⟩
  else
    let sc := md_speed_scan ws
    let dc := md_direction_changes ws
    { avg_speed := listMean sc.1
      max_speed := if sc.1.isEmpty then 0 else listMax sc.1
      stops_count := sc.2
      direction_changes := dc
      smoothness_score := 1 / (1 + (dc : ℝ) * (1/10)) }

/-- Scan state of the advanced analyzer: speed samples, acceleration
samples, stop count and qualifying stop durations. -/
structure AmdScanAcc where
  speeds : List ℝ
  accels : List ℝ
  stops : ℕ
  stopDurs : List ℝ

/-- The main loop of the advanced analyzer (advanced_mode_detector.py
lines 297-336): positive elapsed time yields a speed sample; below
1 km/h it counts a stop and, when a next waypoint exists and the pause
to it exceeds 30 s, records a stop duration; from the second speed
sample on, an acceleration sample `(curr - prev) / elapsed_seconds` is
recorded. -/
noncomputable def amd_speed_scan (ws : List Waypoint) : AmdScanAcc :=
  (List.range' 1 (ws.length - 1)).foldl
    (fun acc i =>
      let p := ws.getD (i - 1) default
      let q := ws.getD i default
      let d := amd_haversine_distance p.lat p.lng q.lat q.lng
      let tds := q.t - p.t
      if 0 < tds then
        let speed := d / (tds / 3600)
        let stopDurs :=
          if speed < 1 ∧ i + 1 < ws.length then
            let sd := (ws.getD (i + 1) default).t - q.t
            if sd > 30 then acc.stopDurs ++ [sd] else acc.stopDurs
          else acc.stopDurs
        let accels :=
          match acc.speeds with
          | [] => acc.accels
          | _ => acc.accels ++ [(speed - acc.speeds.getLast!) / tds]
        { speeds := acc.speeds ++ [speed]
          accels := accels
          stops := if speed < 1 then acc.stops + 1 else acc.stops
          stopDurs := stopDurs }
      else acc)
    ⟨[], [], 0, []⟩

/-- Direction-change count of the advanced analyzer
(advanced_mode_detector.py lines 339-349), using its normalised
bearing. -/
noncomputable def amd_direction_changes (ws : List Waypoint) : ℕ :=
  (List.range' 2 (ws.length - 2)).foldl
    (fun n i =>
      let b1 := amd_calculate_bearing (ws.getD (i - 2) default) (ws.getD (i - 1) default)
      let b2 := amd_calculate_bearing (ws.getD (i - 1) default) (ws.getD i default)
      if angleDiff b1 b2 > 45 then n + 1 else n)
    0

/-- Result record of `AdvancedModeDetector.analyze_waypoints`. -/
structure AMDStats where
  avg_speed : ℝ
  max_speed : ℝ
  stops_count : ℕ
  direction_changes : ℕ
  smoothness_score : ℝ
  avg_acceleration : ℝ
  max_acceleration : ℝ
  avg_stop_duration : ℝ
  stop_count : ℕ

/-- `AdvancedModeDetector.analyze_waypoints` (advanced_mode_detector.py
lines 269-372).  Its smoothness score IS
`1 / (1 + 0.1 * direction_changes + 0.05 * stops_count)` clamped by
`min(1.0, max(0.1, ·))`. -/
noncomputable def amd_analyze_waypoints (ws : List Waypoint) : AMDStats :=
  if ws.length < 2 then ⟨0, 0, 0, 0, 1/2, 0, 0, 0, 0⟩
  else
    let acc := amd_speed_scan ws
    let dc := amd_direction_changes ws
    let smoothness := 1 / (1 + (1/10) * (dc : ℝ) + (1/20) * (acc.stops : ℝ))
    { avg_speed := listMean acc.speeds
      max_speed := if acc.speeds.isEmpty then 0 else listMax acc.speeds
      stops_count := acc.stops
      direction_changes := dc
      smoothness_score := min 1 (max (1/10) smoothness)
      avg_acceleration := listMean (acc.accels.map abs)
      max_acceleration := if acc.accels.isEmpty then 0 else listMax (acc.accels.map abs)
      avg_stop_duration := listMean acc.stopDurs
      stop_count := acc.stopDurs.length }

/-
  `AdvancedModeDetector.preprocess_data` (advanced_mode_detector.py
  lines 122-210).  The whole body runs under `try/except`: any internal
  exception is caught and the all-zeros 1 × len(FEATURE_COLUMNS) vector
  is returned.  The one internal operation that can raise on well-typed
  input is `datetime.fromisoformat` on a malformed start-time string; a
  start time therefore enters the embedding as either a usable datetime
  or a malformed marker, and feature building is `Except`-valued.  The
  trained scaler is an external artifact, modelled as a function that
  may fail (`None`); a failing transform falls back to the unscaled
  vector (lines 200-206), NOT to an error.
-/

/-- A start-time input: either a usable datetime (a datetime object or a
parseable ISO string) or a string whose parse raises. -/
inductive StartTimeInput
  | dt (d : DateTime)
  | malformed

/-- Weather sub-record of a trip. -/
structure Weather where
  temperature : Option ℝ
  condition : Option String
  precipitation : Option ℝ

/-- Input record of `preprocess_data`. -/
structure FullTrip where
  distance_km : Option ℝ
  duration_minutes : Option ℝ
  start_time : Option StartTimeInput
  time_of_day : Option ℝ
  waypoints : List Waypoint
  weather : Option Weather
  route_type : Option ℝ

/-- `AdvancedModeDetector._encode_weather_condition`
(advanced_mode_detector.py lines 707-727). -/
def amd_encode_weather_condition (condition : String) : ℕ :=
  let table : List (String × ℕ) :=
    [("clear", 0), ("sunny", 0), ("partly_cloudy", 1), ("cloudy", 2),
     ("overcast", 2), ("mist", 3), ("fog", 3), ("drizzle", 4), ("rain", 5),
     ("heavy_rain", 6), ("thunderstorm", 7), ("snow", 8), ("sleet", 9),
     ("hail", 10)]
  (table.lookup (condition.toLower.replace " " "_")).getD 0

/-- The feature dictionary built by `preprocess_data` (lines 133-191), in
insertion order, or an error when the start-time string fails to parse. -/
noncomputable def amd_build_features (trip : FullTrip) :
    Except Unit (List (String × ℝ)) := do
  let distance := trip.distance_km.getD 0
  let duration := trip.duration_minutes.getD 0
  let avgSpeed := if duration > 0 then distance / duration * 60 else 0
  let timeFeats ←
    match trip.start_time with
    | some .malformed => Except.error ()
    | some (.dt d) =>
        Except.ok ((d.hour : ℝ), (d.weekday : ℝ),
          (if d.weekday ≥ 5 then (1 : ℝ) else 0),
          (if (7 ≤ d.hour ∧ d.hour ≤ 10) ∨ (16 ≤ d.hour ∧ d.hour ≤ 19)
           then (1 : ℝ) else 0))
    | none => Except.ok (trip.time_of_day.getD 12, 0, 0, 0)
  let wp :=
    if trip.waypoints.isEmpty then
      (avgSpeed * (3/2), (0 : ℝ), (0 : ℝ), (0 : ℝ), (0 : ℝ))
    else
      let wa := amd_analyze_waypoints trip.waypoints
      (wa.max_speed, (wa.stops_count : ℝ), (wa.direction_changes : ℝ),
        wa.avg_acceleration, wa.max_acceleration)
  let we :=
    match trip.weather with
    | some w =>
        (w.temperature.getD 20,
          ((amd_encode_weather_condition (w.condition.getD "clear")) : ℝ),
          (if w.precipitation.getD 0 > 0 then (1 : ℝ) else 0))
    | none => ((20 : ℝ), 0, 0)
  Except.ok
    [("distance_km", distance), ("duration_minutes", duration),
     ("avg_speed", avgSpeed),
     ("time_of_day", timeFeats.1), ("day_of_week", timeFeats.2.1),
     ("is_weekend", timeFeats.2.2.1), ("is_rush_hour", timeFeats.2.2.2),
     ("max_speed", wp.1), ("stops_count", wp.2.1),
     ("direction_changes", wp.2.2.1), ("avg_acceleration", wp.2.2.2.1),
     ("max_acceleration", wp.2.2.2.2),
     ("weather_temp", we.1), ("weather_condition", we.2.1),
     ("is_precipitation", we.2.2),
     ("route_type", trip.route_type.getD 0)]

/-- `AdvancedModeDetector.preprocess_data` (advanced_mode_detector.py
lines 122-210): extract the feature vector in FEATURE_COLUMNS order
(`features.get(feature, 0)`), scale it when models are loaded (keeping
the unscaled vector when the scaler raises), and return the all-zeros
vector of the same length when feature building raises. -/
noncomputable def amd_preprocess_data (modelsLoaded : Bool)
    (scaler : List ℝ → Option (List ℝ)) (trip : FullTrip) : List ℝ :=
  match amd_build_features trip with
  | .error _ => List.replicate feature_columns.length 0
  | .ok feats =>
      let vec := feature_columns.map (fun f => (feats.lookup f).getD 0)
      if modelsLoaded then
        match scaler vec with
        | some v => v
        | none => vec
      else vec

/-
  Concrete inputs used by the claim theorems below.
-/

/-- The smoothness formula asserted by the spec:
`1 / (1 + 0.1 * direction_changes + 0.05 * stops_count)` clamped to
[0.1, 1.0]. -/
noncomputable def smoothnessSpec (dc stops : ℕ) : ℝ :=
  min 1 (max (1/10) (1 / (1 + (1/10) * (dc : ℝ) + (1/20) * (stops : ℝ))))

/-- Two waypoints at the same location one hour apart: one speed sample
of 0 km/h, i.e. one counted stop. -/
def wsStop : List Waypoint := [⟨10, 20, 0⟩, ⟨10, 20, 3600⟩]

def jOne : String → ℚ := fun _ => 1
def jLeisureHigh : String → ℚ := fun p => if p = "leisure" then 13/10 else 1
def geodZero : ℚ → ℚ → ℚ → ℚ → ℚ := fun _ _ _ _ => 0
def emptyPurposeTrip : PurposeTrip := ⟨none, none, none, none, none, none, none⟩

def walkTrip : TripData := ⟨some (1/2), some 8, none⟩

def jWalkLow : String → ℚ := fun p => if p = "walk" then 4/5 else 1

/-- Four waypoints: a fast hop, a 3600 s standstill, and a fast hop
ending the trace, so the scan's last qualifying stop ends at the final
step and the final open segment holds the single waypoint index 3. -/
def ws4C : List Waypoint :=
  [⟨0, 0, 0⟩, ⟨0, 180, 3600⟩, ⟨0, 180, 7200⟩, ⟨0, 0, 10800⟩]

/-
  Helper theorems: structure of the segmentation scan.
-/

/-- Appending a pair that starts exactly at the chain end extends the
chain. -/
theorem chainFromB_append {s c e : ℕ} :
    ∀ {l : List (ℕ × ℕ)}, chainFromB s l c = true → c ≤ e →
      chainFromB s (l ++ [(c, e)]) (e + 1) = true := by
  intro l
  induction l generalizing s with
  | nil =>
      intro h hce
      simp only [chainFromB, beq_iff_eq] at h
      subst h
      simp [chainFromB, hce]
  | cons p rest ih =>
      intro h hce
      simp only [chainFromB, Bool.and_eq_true, beq_iff_eq, decide_eq_true_eq] at h
      simp only [List.cons_append, chainFromB, Bool.and_eq_true, beq_iff_eq,
        decide_eq_true_eq]
      exact ⟨⟨h.1.1, h.1.2⟩, ih h.2 hce⟩

/-- Every pair of a chain is well-ordered: start ≤ end. -/
theorem chainFromB_mem {s c : ℕ} :
    ∀ {l : List (ℕ × ℕ)}, chainFromB s l c = true →
      ∀ p ∈ l, p.1 ≤ p.2 := by
  intro l
  induction l generalizing s with
  | nil => intro _ p hp; cases hp
  | cons q rest ih =>
      intro h p hp
      simp only [chainFromB, Bool.and_eq_true, beq_iff_eq, decide_eq_true_eq] at h
      rcases List.mem_cons.mp hp with rfl | hmem
      · exact h.1.2
      · exact ih h.2 p hmem

/-- The scan step preserves the invariant. -/
theorem scanStep_inv (tms : ℕ → ℝ) (minD : ℝ) (kind : ℕ → StepKind)
    (st : ScanSt) (i : ℕ) (h : ScanInv st i) (hi : 1 ≤ i) :
    ScanInv (scanStep tms minD kind st i) (i + 1) := by
  obtain ⟨hchain, hci, hstop⟩ := h
  unfold scanStep
  cases hk : kind i with
  | skipk =>
      show ScanInv st (i + 1)
      exact ⟨hchain, by omega, fun hs => by have := hstop hs; omega⟩
  | stopk =>
      cases hin : st.inStop with
      | true =>
          show ScanInv st (i + 1)
          exact ⟨hchain, by omega, fun _ => by have := hstop hin; omega⟩
      | false =>
          show ScanInv ⟨st.segs, st.c, true, some (tms (i - 1))⟩ (i + 1)
          exact ⟨hchain, show st.c + 1 ≤ i + 1 by omega,
            fun _ => show st.c + 2 ≤ i + 1 by omega⟩
  | movek =>
      cases hin : st.inStop with
      | true =>
          have hc2 : st.c + 2 ≤ i := hstop hin
          show ScanInv
            (if minD ≤ tms (i - 1) - st.stopStart.getD (tms (i - 1)) then
              { segs := if st.c < i - 1 then st.segs ++ [(st.c, i - 1)]
                  else st.segs,
                c := i, inStop := false, stopStart := none }
             else { st with inStop := false, stopStart := none }) (i + 1)
          by_cases hdur : minD ≤ tms (i - 1) - st.stopStart.getD (tms (i - 1))
          · rw [if_pos hdur, if_pos (show st.c < i - 1 by omega)]
            refine ⟨?_, show i + 1 ≤ i + 1 by omega, fun hs => nomatch hs⟩
            show chainFromB 0 (st.segs ++ [(st.c, i - 1)]) i = true
            have hrw : (i - 1) + 1 = i := by omega
            rw [← hrw]
            exact chainFromB_append hchain (by omega)
          · rw [if_neg hdur]
            exact ⟨hchain, show st.c + 1 ≤ i + 1 by omega, fun hs => nomatch hs⟩
      | false =>
          show ScanInv st (i + 1)
          exact ⟨hchain, by omega, fun hs => by rw [hin] at hs; cases hs⟩

/-- The scan maintains the invariant from its initial state through all
steps 1 .. k. -/
theorem scanRun_inv (tms : ℕ → ℝ) (minD : ℝ) (kind : ℕ → StepKind) :
    ∀ k : ℕ,
      ScanInv ((List.range' 1 k).foldl (scanStep tms minD kind)
        ⟨[], 0, false, none⟩) (k + 1) := by
  intro k
  induction k with
  | zero =>
      exact ⟨rfl, le_refl 1, fun hs => by cases hs⟩
  | succ k ih =>
      rw [List.range'_1_concat, List.foldl_append]
      simp only [List.foldl_cons, List.foldl_nil]
      rw [Nat.add_comm 1 k]
      exact scanStep_inv tms minD kind _ (k + 1) ih (by omega)

/-- The full list of emitted index pairs chains from 0 and partitions
the index interval [0, n-1] or [0, n-2]: the only possibly-missing index
is the last one, dropped when the final open segment holds a single
waypoint. -/
theorem segIndexList_chain (tms : ℕ → ℝ) (minD : ℝ) (kind : ℕ → StepKind)
    (n : ℕ) (hn : 2 ≤ n) :
    chainFromB 0 (segIndexList tms minD kind n) n = true ∨
      chainFromB 0 (segIndexList tms minD kind n) (n - 1) = true := by
  unfold segIndexList scanRun
  have hinv := scanRun_inv tms minD kind (n - 1)
  set st := (List.range' 1 (n - 1)).foldl (scanStep tms minD kind)
    ⟨[], 0, false, none⟩ with hst
  obtain ⟨hchain, hci, -⟩ := hinv
  by_cases hfin : st.c < n - 1
  · left
    simp only [hfin, if_true]
    have : n = (n - 1) + 1 := by omega
    rw [this]
    exact chainFromB_append hchain (by omega)
  · right
    simp only [hfin, if_false]
    have : st.c = n - 1 := by omega
    rw [← this]
    exact hchain

/-
  Helper theorems: Python float modulo and concrete geometry values.
-/

/-- Python float modulo by a positive divisor is expressible through the
fractional part. -/
theorem pymod_eq_mul_fract (a : ℝ) {b : ℝ} (hb : b ≠ 0) :
    pymod a b = b * Int.fract (a / b) := by
  unfold pymod
  rw [Int.fract, mul_sub, mul_div_cancel₀ _ hb]


theorem pymod_nonneg (a : ℝ) {b : ℝ} (hb : 0 < b) : 0 ≤ pymod a b := by
  rw [pymod_eq_mul_fract a hb.ne']
  exact mul_nonneg hb.le (Int.fract_nonneg _)

theorem pymod_lt (a : ℝ) {b : ℝ} (hb : 0 < b) : pymod a b < b := by
  rw [pymod_eq_mul_fract a hb.ne']
  calc b * Int.fract (a / b) < b * 1 :=
        (mul_lt_mul_left hb).mpr (Int.fract_lt_one _)
    _ = b := mul_one b

theorem atan2_zero_one : atan2 0 1 = 0 := by
  have h : (⟨1, 0⟩ : ℂ) = 1 := Complex.ext (by simp) (by simp)
  unfold atan2
  rw [h, Complex.arg_one]

theorem atan2_one_zero : atan2 1 0 = Real.pi / 2 := by
  have h : (⟨0, 1⟩ : ℂ) = Complex.I := Complex.ext (by simp) (by simp)
  unfold atan2
  rw [h, Complex.arg_I]

theorem atan2_neg_one_zero : atan2 (-1) 0 = -(Real.pi / 2) := by
  have h : (⟨0, -1⟩ : ℂ) = -Complex.I := Complex.ext (by simp) (by simp)
  unfold atan2
  rw [h, Complex.arg_neg_I]

theorem radiansR_zero : radiansR 0 = 0 := by simp [radiansR]

theorem radiansR_180 : radiansR 180 = Real.pi := by
  unfold radiansR
  field_simp

theorem radiansR_neg_180 : radiansR (0 - 180) = -Real.pi := by
  unfold radiansR
  field_simp
  ring

theorem radiansR_neg_90 : radiansR (-90) = -(Real.pi / 2) := by
  unfold radiansR
  field_simp
  ring

theorem md_haversine_self (la ln : ℝ) : md_haversine_distance la ln la ln = 0 := by
  unfold md_haversine_distance
  simp only [sub_self, radiansR_zero]
  norm_num [atan2_zero_one]

theorem md_haversine_antipodal :
    md_haversine_distance 0 0 0 180 = 6371 * Real.pi := by
  unfold md_haversine_distance
  simp only [sub_self, sub_zero, radiansR_zero, radiansR_180]
  norm_num [Real.sin_pi_div_two, atan2_one_zero]
  ring

theorem md_haversine_antipodal_rev :
    md_haversine_distance 0 180 0 0 = 6371 * Real.pi := by
  unfold md_haversine_distance
  simp only [sub_self, radiansR_neg_180, radiansR_zero]
  have hs : Real.sin (-Real.pi / 2) = -1 := by
    rw [show -Real.pi / 2 = -(Real.pi / 2) by ring, Real.sin_neg,
      Real.sin_pi_div_two]
  norm_num [hs, atan2_one_zero]
  ring

/-- atan2 is bounded above by pi. -/
theorem atan2_le_pi (y x : ℝ) : atan2 y x ≤ Real.pi := Complex.arg_le_pi _

/-- atan2 is strictly above -pi. -/
theorem neg_pi_lt_atan2 (y x : ℝ) : -Real.pi < atan2 y x := Complex.neg_pi_lt_arg _

/-- Radians below pi convert to at most 180 degrees. -/
theorem degreesR_le_180 {r : ℝ} (h : r ≤ Real.pi) : degreesR r ≤ 180 := by
  unfold degreesR
  have hk : 0 < 180 / Real.pi := div_pos (by norm_num) Real.pi_pos
  calc r * (180 / Real.pi) ≤ Real.pi * (180 / Real.pi) :=
        mul_le_mul_of_nonneg_right h hk.le
    _ = 180 := by field_simp

/-- Radians above -pi convert to more than -180 degrees. -/
theorem neg_180_lt_degreesR {r : ℝ} (h : -Real.pi < r) : -180 < degreesR r := by
  unfold degreesR
  have hk : 0 < 180 / Real.pi := div_pos (by norm_num) Real.pi_pos
  have := mul_lt_mul_of_pos_right h hk
  calc (-180 : ℝ) = -Real.pi * (180 / Real.pi) := by
        field_simp
        ring
    _ < r * (180 / Real.pi) := this

/-- The simple-tier bearing from the origin to the equatorial point 90
degrees west evaluates to -90 degrees. -/
theorem md_bearing_west :
    md_calculate_bearing ⟨0, 0, 0⟩ ⟨0, -90, 0⟩ = -90 := by
  unfold md_calculate_bearing
  simp only [radiansR_zero, radiansR_neg_90]
  norm_num [Real.sin_neg, Real.sin_pi_div_two, atan2_neg_one_zero]
  unfold degreesR
  field_simp
  ring

/-- C4 counterexample: the claim that BOTH bearing implementations
return values in [0, 360) fails on `ModeDetector._calculate_bearing`,
which returns -90 for the distinct points (0,0) and (0,-90). -/
theorem c4_counterexample :
    md_calculate_bearing ⟨0, 0, 0⟩ ⟨0, -90, 0⟩ = -90 ∧
    (⟨0, 0, 0⟩ : Waypoint) ≠ ⟨0, -90, 0⟩ ∧
    ¬ (0 ≤ md_calculate_bearing ⟨0, 0, 0⟩ ⟨0, -90, 0⟩) := by
  refine ⟨md_bearing_west, ?_, ?_⟩
  · intro h
    have := congrArg Waypoint.lng h
    norm_num at this
  · rw [md_bearing_west]
    norm_num

/-- C4 (amended): only `AdvancedModeDetector._calculate_bearing`
normalises into [0, 360); `ModeDetector._calculate_bearing` returns the
raw `atan2` degrees in (-180, 180]. -/
theorem c4_amended :
    (∀ p q : Waypoint,
      0 ≤ amd_calculate_bearing p q ∧ amd_calculate_bearing p q < 360) ∧
    (∀ p q : Waypoint,
      -180 < md_calculate_bearing p q ∧ md_calculate_bearing p q ≤ 180) := by
  constructor
  · intro p q
    exact ⟨pymod_nonneg _ (by norm_num), pymod_lt _ (by norm_num)⟩
  · intro p q
    exact ⟨neg_180_lt_degreesR (neg_pi_lt_atan2 _ _),
      degreesR_le_180 (atan2_le_pi _ _)⟩

/-- C3 counterexample: `train_models` with 10 samples and training
enabled returns status "error" (with the insufficient-data message), not
the "skipped" status the spec describes; "skipped" is only produced when
training is disabled. -/
theorem c3_counterexample :
    (amd_train_models true (List.range 10) ⟨false⟩
      (fun _ _ => (⟨"trained", ""⟩, ⟨true⟩))).1.status = "error" ∧
    (amd_train_models true (List.range 10) ⟨false⟩
      (fun _ _ => (⟨"trained", ""⟩, ⟨true⟩))).1.status ≠ "skipped" := by
  constructor <;> decide

/-- C3 (amended): with training enabled and fewer than 50 samples,
`train_models` returns the status "error" report carrying the
insufficient-data message and leaves the bundle (hence the tier used by
subsequent predictions) unchanged; the "skipped" status is returned only
when training is disabled, also leaving the bundle unchanged. -/
theorem c3_amended {α : Type} (data : List α) (bundle : Bundle)
    (doTrain : List α → Bundle → TrainReport × Bundle)
    (h : data.length < 50) :
    amd_train_models true data bundle doTrain =
      ({ status := "error",
         message := "Not enough training data (min 50 samples required)" },
        bundle) ∧
    (amd_train_models true data bundle doTrain).2 = bundle ∧
    tierUsed (amd_train_models true data bundle doTrain).2 = tierUsed bundle ∧
    (∀ d : List α, amd_train_models false d bundle doTrain =
      ({ status := "skipped", message := "ML training disabled in settings" },
        bundle)) := by
  have hmain : amd_train_models true data bundle doTrain =
      ({ status := "error",
         message := "Not enough training data (min 50 samples required)" },
        bundle) := by
    unfold amd_train_models
    simp [h]
  refine ⟨hmain, by rw [hmain], by rw [hmain], fun d => by
    unfold amd_train_models; simp⟩

/-- C3 witness: the amended statement applied at 10 integer samples. -/
theorem c3_witness :
    (List.range 10).length < 50 ∧
    (amd_train_models true (List.range 10) ⟨false⟩
      (fun _ _ => (⟨"trained", ""⟩, ⟨true⟩))).2 = ⟨false⟩ :=
  ⟨by decide,
    (c3_amended (List.range 10) ⟨false⟩
      (fun _ _ => (⟨"trained", ""⟩, ⟨true⟩)) (by decide)).2.1⟩

/-- Evaluation of the simple-tier analyzer on `wsStop`. -/
theorem md_analyze_wsStop :
    md_analyze_waypoints wsStop = ⟨0, 0, 1, 0, 1⟩ := by
  have hscan : md_speed_scan wsStop = ([0], 1) := by
    unfold md_speed_scan
    simp [wsStop, List.range', md_haversine_self]
  have hdc : md_direction_changes wsStop = 0 := by
    unfold md_direction_changes
    simp [wsStop, List.range']
  unfold md_analyze_waypoints
  rw [if_neg (by simp [wsStop])]
  rw [hscan, hdc]
  simp [listMean, listMax]

/-- C6 counterexample: on `wsStop` the simple-tier analyzer counts one
stop and no direction change, yet reports smoothness 1, while the
claimed formula gives 20/21 — the simple implementation omits the stop
term and the clamp. -/
theorem c6_counterexample :
    (md_analyze_waypoints wsStop).stops_count = 1 ∧
    (md_analyze_waypoints wsStop).direction_changes = 0 ∧
    (md_analyze_waypoints wsStop).smoothness_score = 1 ∧
    smoothnessSpec 0 1 = 20/21 ∧
    (md_analyze_waypoints wsStop).smoothness_score ≠
      smoothnessSpec (md_analyze_waypoints wsStop).direction_changes
        (md_analyze_waypoints wsStop).stops_count := by
  rw [md_analyze_wsStop]
  refine ⟨rfl, rfl, rfl, ?_, ?_⟩
  · unfold smoothnessSpec
    norm_num
  · unfold smoothnessSpec
    norm_num

/-- C6 (amended): the ADVANCED analyzer's smoothness equals the claimed
clamped formula of its own direction-change and stop counts, and that
formula is monotonically non-increasing in both counts; the SIMPLE
analyzer instead reports `1 / (1 + 0.1 * direction_changes)`, with no
stop term and no clamp. -/
theorem c6_amended :
    (∀ ws : List Waypoint, 2 ≤ ws.length →
      (amd_analyze_waypoints ws).smoothness_score =
        smoothnessSpec (amd_analyze_waypoints ws).direction_changes
          (amd_analyze_waypoints ws).stops_count) ∧
    (∀ d1 d2 s1 s2 : ℕ, d1 ≤ d2 → s1 ≤ s2 →
      smoothnessSpec d2 s2 ≤ smoothnessSpec d1 s1) ∧
    (∀ ws : List Waypoint, 2 ≤ ws.length →
      (md_analyze_waypoints ws).smoothness_score =
        1 / (1 + ((md_analyze_waypoints ws).direction_changes : ℝ) * (1/10))) := by
  refine ⟨?_, ?_, ?_⟩
  · intro ws hws
    unfold amd_analyze_waypoints smoothnessSpec
    rw [if_neg (by omega)]
  · intro d1 d2 s1 s2 hd hs
    unfold smoothnessSpec
    gcongr
  · intro ws hws
    unfold md_analyze_waypoints
    rw [if_neg (by omega)]

/-- C6 witness: the amended statement instantiated on `wsStop` and on
the counts (0,0) ≤ (1,1). -/
theorem c6_witness :
    2 ≤ wsStop.length ∧
    (amd_analyze_waypoints wsStop).smoothness_score =
      smoothnessSpec (amd_analyze_waypoints wsStop).direction_changes
        (amd_analyze_waypoints wsStop).stops_count ∧
    smoothnessSpec 1 1 ≤ smoothnessSpec 0 0 ∧
    (md_analyze_waypoints wsStop).smoothness_score =
      1 / (1 + ((md_analyze_waypoints wsStop).direction_changes : ℝ) * (1/10)) :=
  ⟨by simp [wsStop], c6_amended.1 wsStop (by simp [wsStop]),
    c6_amended.2.1 0 1 0 1 (by norm_num) (by norm_num),
    c6_amended.2.2 wsStop (by simp [wsStop])⟩

/-- `argmaxFirst` keeps the head when no later score strictly beats it. -/
theorem argmaxFirst_le (p : String × ℚ) (rest : List (String × ℚ))
    (h : ∀ q ∈ rest, q.2 ≤ p.2) : argmaxFirst p rest = p := by
  unfold argmaxFirst
  induction rest with
  | nil => rfl
  | cons q qs ih =>
      simp only [List.foldl_cons]
      rw [if_neg (by push_neg; exact h q (List.mem_cons_self q qs))]
      exact ih (fun r hr => h r (List.mem_cons_of_mem _ hr))

/-- C8: for the trip with distance_km = 0.5 and duration_minutes = 8
(average speed 3.75 km/h) and the default time of day, the fallback
classifier predicts "walk" for EVERY admissible jitter draw (all factors
within [0.8, 1.2]): the walk score is at least 0.3 * 0.8 = 0.24 while
every competitor is at most 0.15 * 1.2 = 0.18. -/
theorem c8_theorem (j : String → ℚ) (hj : ∀ s, 4/5 ≤ j s ∧ j s ≤ 6/5) :
    (md_predict_mode ⟨some (1/2), some 8, none⟩ j).1 = "walk" := by
  unfold md_predict_mode
  simp only [mode_probabilities, md_mode_score, List.map, String.reduceEq,
    Option.getD]
  norm_num
  rw [argmaxFirst_le]
  intro q hq
  have hw := (hj "walk").1
  simp only [List.mem_cons, List.not_mem_nil, or_false] at hq
  rcases hq with rfl | rfl | rfl | rfl | rfl <;>
    · dsimp only
      first
      | linarith [(hj "cycle").2]
      | linarith [(hj "bike").2]
      | linarith [(hj "car").2]
      | linarith [(hj "bus").2]
      | linarith [(hj "metro").2]

/-- C8 witness: the theorem applied to the unit jitter draw. -/
theorem c8_witness :
    (md_predict_mode ⟨some (1/2), some 8, none⟩ (fun _ => 1)).1 = "walk" :=
  c8_theorem (fun _ => 1) (fun _ => by norm_num)

/-- Clamping `max (min c hi) lo` lands in [lo, hi]. -/
theorem clamp_bounds (c lo hi : ℚ) (h : lo ≤ hi) :
    lo ≤ max (min c hi) lo ∧ max (min c hi) lo ≤ hi :=
  ⟨le_max_right _ _, max_le ((min_le_right _ _).trans le_rfl) h⟩

/-- Entries of the 0.6/0.4 blend of two probability vectors with entries
in [0, 1] stay in [0, 1]. -/
theorem ensembleBlend_mem_bounds :
    ∀ (rf xgb : List ℚ), (∀ x ∈ rf, 0 ≤ x ∧ x ≤ 1) →
      (∀ x ∈ xgb, 0 ≤ x ∧ x ≤ 1) →
      ∀ x ∈ ensembleBlend rf xgb, 0 ≤ x ∧ x ≤ 1 := by
  intro rf
  induction rf with
  | nil => intro xgb _ _ x hx; cases hx
  | cons a as ih =>
      intro xgb hrf hxgb x hx
      cases xgb with
      | nil => cases hx
      | cons b bs =>
          simp only [ensembleBlend, List.zipWith_cons_cons, List.mem_cons] at hx
          rcases hx with rfl | hx
          · have ha := hrf a (List.mem_cons_self _ _)
            have hb := hxgb b (List.mem_cons_self _ _)
            constructor
            · nlinarith [ha.1, hb.1]
            · nlinarith [ha.2, hb.2]
          · exact ih bs (fun y hy => hrf y (List.mem_cons_of_mem _ hy))
              (fun y hy => hxgb y (List.mem_cons_of_mem _ hy)) x hx

/-- A `getD` read of a list whose members all satisfy a property, with a
default satisfying it too, satisfies the property. -/
theorem getD_prop {P : ℚ → Prop} {l : List ℚ} {d : ℚ} (i : ℕ)
    (h : ∀ x ∈ l, P x) (hd : P d) : P (l.getD i d) := by
  induction l generalizing i with
  | nil => simpa [List.getD]
  | cons a as ih =>
      cases i with
      | zero => exact h a (List.mem_cons_self _ _)
      | succ n =>
          simp only [List.getD_cons_succ]
          exact ih n (fun y hy => h y (List.mem_cons_of_mem _ hy))

/-- C7: every confidence produced by the subsystem lies in [0, 1]:
the fallback mode confidence is clamped to [0.1, 0.95], the purpose
confidence to [0.2, 0.9], and the ensemble confidence is a blended
per-class probability, hence in [0, 1] whenever both model outputs are
probability vectors — including the advanced predictor's fallback path. -/
theorem c7_theorem :
    (∀ (trip : TripData) (j : String → ℚ),
      1/10 ≤ (md_predict_mode trip j).2 ∧ (md_predict_mode trip j).2 ≤ 19/20) ∧
    (∀ (geod : ℚ → ℚ → ℚ → ℚ → ℚ) (nowHour : ℕ) (trip : PurposeTrip)
        (hist : List HistTrip) (j : String → ℚ),
      1/5 ≤ (pp_predict_purpose geod nowHour trip hist j).2 ∧
        (pp_predict_purpose geod nowHour trip hist j).2 ≤ 9/10) ∧
    (∀ (rf xgb : List ℚ) (trip : TripData) (j : String → ℚ),
      (∀ x ∈ rf, 0 ≤ x ∧ x ≤ 1) → (∀ x ∈ xgb, 0 ≤ x ∧ x ≤ 1) →
      0 ≤ (amd_predict_mode true rf xgb trip j).2.1 ∧
        (amd_predict_mode true rf xgb trip j).2.1 ≤ 1) ∧
    (∀ (rf xgb : List ℚ) (trip : TripData) (j : String → ℚ),
      0 ≤ (amd_predict_mode false rf xgb trip j).2.1 ∧
        (amd_predict_mode false rf xgb trip j).2.1 ≤ 1) := by
  have hmd : ∀ (trip : TripData) (j : String → ℚ),
      1/10 ≤ (md_predict_mode trip j).2 ∧ (md_predict_mode trip j).2 ≤ 19/20 := by
    intro trip j
    unfold md_predict_mode
    exact clamp_bounds _ _ _ (by norm_num)
  refine ⟨hmd, ?_, ?_, ?_⟩
  · intro geod nowHour trip hist j
    unfold pp_predict_purpose
    exact clamp_bounds _ _ _ (by norm_num)
  · intro rf xgb trip j hrf hxgb
    unfold amd_predict_mode
    exact getD_prop _ (ensembleBlend_mem_bounds rf xgb hrf hxgb) (by norm_num)
  · intro rf xgb trip j
    have hb := hmd trip j
    unfold amd_predict_mode
    exact ⟨le_trans (by norm_num) hb.1, le_trans hb.2 (by norm_num)⟩

/-- C7 witness: the bounds instantiated on concrete inputs for all four
paths. -/
theorem c7_witness :
    (1/10 ≤ (md_predict_mode ⟨some (1/2), some 8, none⟩ (fun _ => 1)).2 ∧
      (md_predict_mode ⟨some (1/2), some 8, none⟩ (fun _ => 1)).2 ≤ 19/20) ∧
    (1/5 ≤ (pp_predict_purpose (fun _ _ _ _ => 0) 0
        ⟨none, none, none, none, none, none, none⟩ [] (fun _ => 1)).2 ∧
      (pp_predict_purpose (fun _ _ _ _ => 0) 0
        ⟨none, none, none, none, none, none, none⟩ [] (fun _ => 1)).2 ≤ 9/10) ∧
    (0 ≤ (amd_predict_mode true [1] [1] ⟨none, none, none⟩ (fun _ => 1)).2.1 ∧
      (amd_predict_mode true [1] [1] ⟨none, none, none⟩ (fun _ => 1)).2.1 ≤ 1) ∧
    (0 ≤ (amd_predict_mode false [1] [1] ⟨none, none, none⟩ (fun _ => 1)).2.1 ∧
      (amd_predict_mode false [1] [1] ⟨none, none, none⟩ (fun _ => 1)).2.1 ≤ 1) :=
  ⟨c7_theorem.1 _ _, c7_theorem.2.1 _ _ _ _ _,
    c7_theorem.2.2.1 [1] [1] _ _
      (by intro x hx; simp only [List.mem_singleton] at hx; subst hx; norm_num)
      (by intro x hx; simp only [List.mem_singleton] at hx; subst hx; norm_num),
    c7_theorem.2.2.2 [1] [1] _ _⟩

theorem strHas_empty (k : String) : strHas "" k = k.data.isEmpty := rfl

theorem toLower_empty : "".toLower = "" := by
  simp [String.toLower, String.map, String.mapAux, String.atEnd, String.endPos,
    String.utf8ByteSize]

theorem ht_none (p : String) (wd : ℕ) : pp_calculate_time_score p none wd = 1/2 := rfl

theorem hl_work : pp_calculate_location_score "work" "" "" = 1 := by
  simp only [pp_calculate_location_score, location_keywords, List.lookup,
    List.filter, List.foldl, strHas_empty, String.reduceEq, String.reduceBEq]
  norm_num

theorem hl_school : pp_calculate_location_score "school" "" "" = 1 := by
  simp only [pp_calculate_location_score, location_keywords, List.lookup,
    List.filter, List.foldl, strHas_empty, String.reduceEq, String.reduceBEq]
  norm_num

theorem hl_shopping : pp_calculate_location_score "shopping" "" "" = 1 := by
  simp only [pp_calculate_location_score, location_keywords, List.lookup,
    List.filter, List.foldl, strHas_empty, String.reduceEq, String.reduceBEq]
  norm_num

theorem hl_leisure : pp_calculate_location_score "leisure" "" "" = 1 := by
  simp only [pp_calculate_location_score, location_keywords, List.lookup,
    List.filter, List.foldl, strHas_empty, String.reduceEq, String.reduceBEq]
  norm_num

theorem hl_social : pp_calculate_location_score "social" "" "" = 1 := by
  simp only [pp_calculate_location_score, location_keywords, List.lookup,
    List.filter, List.foldl, strHas_empty, String.reduceEq, String.reduceBEq]
  norm_num

theorem hm_work : pp_calculate_mode_score "work" "walk" = 4/5 := rfl
theorem hm_school : pp_calculate_mode_score "school" "walk" = 11/10 := rfl
theorem hm_shopping : pp_calculate_mode_score "shopping" "walk" = 6/5 := rfl
theorem hm_leisure : pp_calculate_mode_score "leisure" "walk" = 6/5 := rfl
theorem hm_social : pp_calculate_mode_score "social" "walk" = 11/10 := rfl

set_option maxHeartbeats 1600000 in
theorem pp_predict_empty_one :
    pp_predict_purpose geodZero 0 emptyPurposeTrip [] jOne = ("shopping", 1/5) := by
  simp only [pp_predict_purpose, emptyPurposeTrip, time_patterns, List.map,
    Option.getD, toLower_empty, ht_none, hl_work, hl_school, hl_shopping,
    hl_leisure, hl_social, hm_work, hm_school, hm_shopping, hm_leisure,
    hm_social, jOne, List.isEmpty, argmaxFirst, List.foldl, List.filter,
    List.contains, List.elem, String.reduceEq, String.reduceBEq]
  norm_num

set_option maxHeartbeats 1600000 in
theorem pp_predict_empty_leisure :
    pp_predict_purpose geodZero 0 emptyPurposeTrip [] jLeisureHigh =
      ("leisure", 39/164) := by
  simp only [pp_predict_purpose, emptyPurposeTrip, time_patterns, List.map,
    Option.getD, toLower_empty, ht_none, hl_work, hl_school, hl_shopping,
    hl_leisure, hl_social, hm_work, hm_school, hm_shopping, hm_leisure,
    hm_social, jLeisureHigh, List.isEmpty, argmaxFirst, List.foldl, List.filter,
    List.contains, List.elem, String.reduceEq, String.reduceBEq]
  norm_num

theorem md_predict_walkTrip_one :
    md_predict_mode walkTrip jOne = ("walk", 480/937) := by
  simp only [md_predict_mode, walkTrip, jOne, mode_probabilities, md_mode_score,
    argmaxFirst, List.map, List.foldl, String.reduceEq, Option.getD]
  norm_num

theorem md_predict_walkTrip_low :
    md_predict_mode walkTrip jWalkLow = ("walk", 384/841) := by
  simp only [md_predict_mode, walkTrip, jWalkLow, mode_probabilities,
    md_mode_score, argmaxFirst, List.map, List.foldl, String.reduceEq,
    Option.getD]
  norm_num

/-- C5 counterexample: the fallback scorers are NOT deterministic across
runs.  All four jitter assignments below are inside the admissible draw
ranges (mode factors within [0.8, 1.2], purpose factors within
[0.7, 1.3]), yet they change the (mode, confidence) pair of
`ModeDetector.predict_mode` and the (purpose, confidence) pair of
`PurposePredictor.predict_purpose` on fixed inputs — so the jitter is
not a function of the input. -/
theorem c5_counterexample :
    (mode_probabilities.map Prod.fst).all
      (fun m => decide ((4 : ℚ)/5 ≤ jWalkLow m) && decide (jWalkLow m ≤ 6/5)) = true ∧
    md_predict_mode walkTrip jOne ≠ md_predict_mode walkTrip jWalkLow ∧
    ((time_patterns.map Prod.fst) ++ ["medical", "business", "exercise", "other"]).all
      (fun p => decide ((7 : ℚ)/10 ≤ jLeisureHigh p) && decide (jLeisureHigh p ≤ 13/10)) = true ∧
    pp_predict_purpose geodZero 0 emptyPurposeTrip [] jOne ≠
      pp_predict_purpose geodZero 0 emptyPurposeTrip [] jLeisureHigh := by
  refine ⟨?_, ?_, ?_, ?_⟩
  · simp only [mode_probabilities, time_patterns, List.map, List.all, jWalkLow,
      String.reduceEq, Bool.and_eq_true, decide_eq_true_eq]
    norm_num
  · rw [md_predict_walkTrip_one, md_predict_walkTrip_low]
    intro h
    have := congrArg Prod.snd h
    norm_num at this
  · simp only [mode_probabilities, time_patterns, List.map, List.all,
      List.append_eq, List.cons_append, List.nil_append, jLeisureHigh,
      String.reduceEq, Bool.and_eq_true, decide_eq_true_eq]
    norm_num
  · rw [pp_predict_empty_one, pp_predict_empty_leisure]
    intro h
    have := congrArg Prod.fst h
    simp at this

/-- C5 (amended): the fallback predictions are deterministic only as
functions of the input TOGETHER WITH the jitter draws — equal draws give
equal outputs — but the draws come from an unseeded global generator, so
two runs on the same input can differ (see the counterexample). -/
theorem c5_amended :
    (∀ (trip : TripData) (j1 j2 : String → ℚ), (∀ s, j1 s = j2 s) →
      md_predict_mode trip j1 = md_predict_mode trip j2) ∧
    (∀ (geod : ℚ → ℚ → ℚ → ℚ → ℚ) (nowHour : ℕ) (trip : PurposeTrip)
        (hist : List HistTrip) (j1 j2 : String → ℚ), (∀ s, j1 s = j2 s) →
      pp_predict_purpose geod nowHour trip hist j1 =
        pp_predict_purpose geod nowHour trip hist j2) := by
  constructor
  · intro trip j1 j2 h
    rw [funext h]
  · intro geod nowHour trip hist j1 j2 h
    rw [funext h]

/-- C5 witness: the amended determinism applied to the unit draw on
concrete inputs. -/
theorem c5_witness :
    md_predict_mode walkTrip jOne = md_predict_mode walkTrip jOne ∧
    pp_predict_purpose geodZero 0 emptyPurposeTrip [] jOne =
      pp_predict_purpose geodZero 0 emptyPurposeTrip [] jOne :=
  ⟨c5_amended.1 walkTrip jOne jOne (fun _ => rfl),
    c5_amended.2 geodZero 0 emptyPurposeTrip [] jOne jOne (fun _ => rfl)⟩

/-- Sum of the 0.6/0.4 blend of two equal-length vectors. -/
theorem ensembleBlend_sum :
    ∀ (rf xgb : List ℚ), rf.length = xgb.length →
      (ensembleBlend rf xgb).sum = 3/5 * rf.sum + 2/5 * xgb.sum := by
  intro rf
  induction rf with
  | nil =>
      intro xgb h
      cases xgb with
      | nil => simp [ensembleBlend]
      | cons b bs => simp at h
  | cons a as ih =>
      intro xgb h
      cases xgb with
      | nil => simp at h
      | cons b bs =>
          simp only [List.length_cons, Nat.succ_inj] at h
          simp only [ensembleBlend, List.zipWith_cons_cons, List.sum_cons]
          rw [show List.zipWith (fun a b => 3/5 * a + 2/5 * b) as bs =
            ensembleBlend as bs from rfl, ih bs h]
          ring

/-- Summing the values of a zip of labels with an equal-length value
vector gives the vector's sum. -/
theorem zip_snd_sum :
    ∀ (ms : List String) (qs : List ℚ), ms.length = qs.length →
      ((ms.zip qs).map Prod.snd).sum = qs.sum := by
  intro ms
  induction ms with
  | nil =>
      intro qs h
      cases qs with
      | nil => rfl
      | cons b bs => simp at h
  | cons a as ih =>
      intro qs h
      cases qs with
      | nil => simp at h
      | cons b bs =>
          simp only [List.length_cons, Nat.succ_inj] at h
          simp only [List.zip_cons_cons, List.map_cons, List.sum_cons]
          rw [ih bs h]

/-- C2 counterexample: on the fallback tier the `mode_probabilities`
dictionary of `AdvancedModeDetector.predict_mode` is the single entry
`{mode: confidence}` — for the 0.5 km / 8 min trip its values sum to
480/937 (about 0.512), off from 1 by far more than the 1e-6 tolerance. -/
theorem c2_counterexample :
    (((amd_predict_mode false [] [] walkTrip jOne).2.2).map Prod.snd).sum =
      480/937 ∧
    ¬ |(((amd_predict_mode false [] [] walkTrip jOne).2.2).map Prod.snd).sum - 1|
        ≤ 1/1000000 := by
  have h : (amd_predict_mode false [] [] walkTrip jOne).2.2 =
      [("walk", 480/937)] := by
    unfold amd_predict_mode
    rw [md_predict_walkTrip_one]
    simp
  rw [h]
  norm_num [abs_of_pos]

/-- C2 (amended): the per-mode probability dictionary sums to 1 on the
ENSEMBLE tier (whenever the two model outputs are probability vectors
over the configured label set), but on the FALLBACK tier it is the
single pair `(mode, confidence)`, whose sum is the confidence — a value
clamped to [0.1, 0.95], never within 1e-6 of 1. -/
theorem c2_amended :
    (∀ (rf xgb : List ℚ) (trip : TripData) (j : String → ℚ),
      rf.length = transport_modes.length →
      xgb.length = transport_modes.length →
      rf.sum = 1 → xgb.sum = 1 →
      (((amd_predict_mode true rf xgb trip j).2.2).map Prod.snd).sum = 1) ∧
    (∀ (rf xgb : List ℚ) (trip : TripData) (j : String → ℚ),
      (amd_predict_mode false rf xgb trip j).2.2 =
        [((md_predict_mode trip j).1, (md_predict_mode trip j).2)] ∧
      (((amd_predict_mode false rf xgb trip j).2.2).map Prod.snd).sum =
        (md_predict_mode trip j).2 ∧
      (md_predict_mode trip j).2 ≤ 19/20) := by
  constructor
  · intro rf xgb trip j hrf hxgb hsrf hsxgb
    have hblen : (ensembleBlend rf xgb).length = transport_modes.length := by
      simp [ensembleBlend, List.length_zipWith, hrf, hxgb]
    have hzip : ((transport_modes.zip (ensembleBlend rf xgb)).map Prod.snd).sum
        = (ensembleBlend rf xgb).sum :=
      zip_snd_sum _ _ hblen.symm
    show ((transport_modes.zip (ensembleBlend rf xgb)).map Prod.snd).sum = 1
    rw [hzip, ensembleBlend_sum rf xgb (by rw [hrf, hxgb]), hsrf, hsxgb]
    norm_num
  · intro rf xgb trip j
    refine ⟨rfl, ?_, ?_⟩
    · show ([((md_predict_mode trip j).1, (md_predict_mode trip j).2)].map
        Prod.snd).sum = (md_predict_mode trip j).2
      simp
    · unfold md_predict_mode
      exact (clamp_bounds _ _ _ (by norm_num)).2

/-- C2 witness: the ensemble part instantiated on two concrete
probability vectors over the six configured modes, and the fallback part
on the walk trip. -/
theorem c2_witness :
    (((amd_predict_mode true [1, 0, 0, 0, 0, 0] [0, 1, 0, 0, 0, 0] walkTrip
        jOne).2.2).map Prod.snd).sum = 1 ∧
    (((amd_predict_mode false [] [] walkTrip jOne).2.2).map Prod.snd).sum =
      (md_predict_mode walkTrip jOne).2 :=
  ⟨c2_amended.1 [1, 0, 0, 0, 0, 0] [0, 1, 0, 0, 0, 0] walkTrip jOne
      (by simp [transport_modes]) (by simp [transport_modes])
      (by norm_num) (by norm_num),
    (c2_amended.2 [] [] walkTrip jOne).2.1⟩

/-- Step 1 of `ws4C` covers the antipodal hop in one hour: 6371 pi km/h. -/
theorem ws4C_speed1 : md_step_speed ws4C 1 = 6371 * Real.pi := by
  unfold md_step_speed
  norm_num [ws4C, List.getD_cons_zero, List.getD_cons_succ]
  rw [md_haversine_antipodal]

theorem ws4C_kind1 : md_step_kind ws4C 1 = StepKind.movek := by
  unfold md_step_kind
  rw [ws4C_speed1, if_neg]
  push_neg
  nlinarith [Real.pi_gt_three]

/-- Step 2 of `ws4C` does not move. -/
theorem ws4C_speed2 : md_step_speed ws4C 2 = 0 := by
  unfold md_step_speed
  norm_num [ws4C, List.getD_cons_zero, List.getD_cons_succ]
  rw [md_haversine_self]

theorem ws4C_kind2 : md_step_kind ws4C 2 = StepKind.stopk := by
  unfold md_step_kind
  rw [ws4C_speed2]
  norm_num

/-- Step 3 of `ws4C` is the reverse antipodal hop. -/
theorem ws4C_speed3 : md_step_speed ws4C 3 = 6371 * Real.pi := by
  unfold md_step_speed
  norm_num [ws4C, List.getD_cons_zero, List.getD_cons_succ]
  rw [md_haversine_antipodal_rev]

theorem ws4C_kind3 : md_step_kind ws4C 3 = StepKind.movek := by
  unfold md_step_kind
  rw [ws4C_speed3, if_neg]
  push_neg
  nlinarith [Real.pi_gt_three]

/-- The scan of `ws4C` with the default 300 s threshold emits only the
pair (0, 2): the stop from step 2 to step 3 lasts 3600 s ≥ 300 s, so the
segment is closed at index 2 and the new segment starts at index 3 —
which the final-segment guard `c < n - 1` then drops. -/
theorem ws4C_scan :
    segIndexList (wsT ws4C) 300 (md_step_kind ws4C) 4 = [(0, 2)] := by
  unfold segIndexList scanRun
  rw [show List.range' 1 (4 - 1) = [1, 2, 3] from rfl]
  simp only [List.foldl_cons, List.foldl_nil]
  have e1 : scanStep (wsT ws4C) 300 (md_step_kind ws4C) ⟨[], 0, false, none⟩ 1 =
      ⟨[], 0, false, none⟩ := by
    unfold scanStep
    rw [ws4C_kind1]
    rfl
  have e2 : scanStep (wsT ws4C) 300 (md_step_kind ws4C) ⟨[], 0, false, none⟩ 2 =
      ⟨[], 0, true, some 3600⟩ := by
    unfold scanStep
    rw [ws4C_kind2]
    simp [wsT, ws4C]
  have e3 : scanStep (wsT ws4C) 300 (md_step_kind ws4C) ⟨[], 0, true, some 3600⟩ 3 =
      ⟨[(0, 2)], 3, false, none⟩ := by
    unfold scanStep
    rw [ws4C_kind3]
    simp only [wsT, ws4C, List.getD_cons_zero, List.getD_cons_succ]
    norm_num
  rw [e1, e2, e3]
  norm_num

/-- Index pairs of the simple-tier segmentation of `ws4C`. -/
theorem ws4C_detect :
    (md_detect_trip_segments ws4C 300).map (fun s => (s.start_idx, s.end_idx)) =
      [(0, 2)] := by
  unfold md_detect_trip_segments
  rw [if_neg (by simp [ws4C])]
  rw [show ws4C.length = 4 by simp [ws4C]]
  rw [ws4C_scan]
  rfl

/-- C1 counterexample: on `ws4C` (four waypoints whose 3600 s standstill
ends at the final step) the simple-tier segmenter emits only the segment
(0, 2): the emitted index ranges do NOT partition the input range
[0, 3] — index 3 is uncovered — and no emitted segment reaches the final
index, i.e. the final open segment (the single waypoint 3) is dropped by
the `current_segment_start < len - 1` guard. -/
theorem c1_counterexample :
    (md_detect_trip_segments ws4C 300).map (fun s => (s.start_idx, s.end_idx))
        = [(0, 2)] ∧
    ws4C.length = 4 ∧
    chainFromB 0
      ((md_detect_trip_segments ws4C 300).map (fun s => (s.start_idx, s.end_idx)))
      ws4C.length = false ∧
    ((md_detect_trip_segments ws4C 300).map
      (fun s => (s.start_idx, s.end_idx))).all
        (fun p => p.2 + 1 != ws4C.length) = true := by
  refine ⟨ws4C_detect, by simp [ws4C], ?_, ?_⟩
  · rw [ws4C_detect, show ws4C.length = 4 by simp [ws4C]]
    decide
  · rw [ws4C_detect]
    simp [ws4C]

/-- C1 (amended): in both tiers the emitted segments are ordered,
contiguous from index 0, non-overlapping and gap-free, and their ranges
cover exactly [0, n-1] or [0, n-2]: the only index that can be left
uncovered is the last one, when the final open segment would hold a
single waypoint (it is then not emitted).  The simple tier requires at
least 2 waypoints, the advanced tier's scan at least 10. -/
theorem map_map_id {α β : Type} (f : α → β) (g : β → α)
    (h : ∀ a, g (f a) = a) (l : List α) : (l.map f).map g = l := by
  rw [List.map_map]
  have hgf : g ∘ f = id := funext h
  rw [hgf, List.map_id]

theorem c1_amended (ws : List Waypoint) (minStop : ℝ)
    (pm : List Waypoint → Option String) (h2 : 2 ≤ ws.length) :
    (chainFromB 0 ((md_detect_trip_segments ws minStop).map
        (fun s => (s.start_idx, s.end_idx))) ws.length = true ∨
      chainFromB 0 ((md_detect_trip_segments ws minStop).map
        (fun s => (s.start_idx, s.end_idx))) (ws.length - 1) = true) ∧
    (10 ≤ ws.length →
      (chainFromB 0 ((amd_detect_trip_segments ws minStop pm).map
          (fun s => (s.start_idx.toNat, s.end_idx.toNat))) ws.length = true ∨
        chainFromB 0 ((amd_detect_trip_segments ws minStop pm).map
          (fun s => (s.start_idx.toNat, s.end_idx.toNat))) (ws.length - 1)
            = true)) := by
  constructor
  · unfold md_detect_trip_segments
    rw [if_neg (by omega)]
    rw [map_map_id _ _ (fun p => rfl)]
    exact segIndexList_chain _ _ _ _ h2
  · intro h10
    unfold amd_detect_trip_segments
    rw [if_neg (by omega)]
    rw [map_map_id _ _ (fun p => by simp)]
    exact segIndexList_chain _ _ _ _ h2

/-- C1 witness: the amended statement on `ws4C`, where the second
disjunct (coverage of [0, n-2]) is the one that holds. -/
theorem c1_witness :
    2 ≤ ws4C.length ∧
    (chainFromB 0 ((md_detect_trip_segments ws4C 300).map
        (fun s => (s.start_idx, s.end_idx))) ws4C.length = true ∨
      chainFromB 0 ((md_detect_trip_segments ws4C 300).map
        (fun s => (s.start_idx, s.end_idx))) (ws4C.length - 1) = true) :=
  ⟨by simp [ws4C], (c1_amended ws4C 300 (fun _ => none) (by simp [ws4C])).1⟩

/-- C9 counterexample: on the EMPTY waypoint list the advanced
segmenter's degenerate branch returns the single segment with
start_idx = 0 and end_idx = len - 1 = -1, violating
end_index ≥ start_index. -/
theorem c9_counterexample :
    amd_detect_trip_segments [] 300 (fun _ => none) =
      [{ start_idx := 0, end_idx := -1, waypoints := [],
         predicted_mode := none }] ∧
    ((amd_detect_trip_segments [] 300 (fun _ => none)).all
      (fun s => decide (s.start_idx ≤ s.end_idx))) = false := by
  have h : amd_detect_trip_segments [] 300 (fun _ => none) =
      [{ start_idx := 0, end_idx := -1, waypoints := [],
         predicted_mode := none }] := by
    unfold amd_detect_trip_segments
    rw [if_pos (by simp)]
    norm_num
  refine ⟨h, ?_⟩
  rw [h]
  decide

/-- C9 (amended): every segment emitted for a NONEMPTY input satisfies
end_index ≥ start_index, in both tiers (the simple tier satisfies it for
every input, the empty list included, since it then emits no segments);
only the advanced tier's degenerate branch on the empty input emits the
(0, -1) segment. -/
theorem c9_amended (ws : List Waypoint) (minStop : ℝ)
    (pm : List Waypoint → Option String) (hne : ws ≠ []) :
    ((amd_detect_trip_segments ws minStop pm).all
      (fun s => decide (s.start_idx ≤ s.end_idx))) = true ∧
    (∀ (ws2 : List Waypoint) (d : ℝ),
      ((md_detect_trip_segments ws2 d).all
        (fun s => decide (s.start_idx ≤ s.end_idx))) = true) := by
  constructor
  · unfold amd_detect_trip_segments
    by_cases h10 : ws.length < 10
    · rw [if_pos h10]
      have hlen : 1 ≤ ws.length := List.length_pos.mpr hne
      simp only [List.all_cons, List.all_nil, Bool.and_true,
        decide_eq_true_eq]
      omega
    · rw [if_neg h10]
      rw [List.all_eq_true]
      intro s hs
      obtain ⟨p, hp, rfl⟩ := List.mem_map.mp hs
      have hch := segIndexList_chain (wsT ws) minStop (amd_step_kind ws)
        ws.length (by omega)
      have hple : p.1 ≤ p.2 := by
        rcases hch with hch | hch
        · exact chainFromB_mem hch p hp
        · exact chainFromB_mem hch p hp
      simp only [decide_eq_true_eq]
      exact_mod_cast hple
  · intro ws2 d
    unfold md_detect_trip_segments
    by_cases h2 : ws2.length < 2
    · rw [if_pos h2]
      rfl
    · rw [if_neg h2]
      rw [List.all_eq_true]
      intro s hs
      obtain ⟨p, hp, rfl⟩ := List.mem_map.mp hs
      have hch := segIndexList_chain (wsT ws2) d (md_step_kind ws2)
        ws2.length (by omega)
      have hple : p.1 ≤ p.2 := by
        rcases hch with hch | hch
        · exact chainFromB_mem hch p hp
        · exact chainFromB_mem hch p hp
      simp only [decide_eq_true_eq]
      exact hple

/-- C9 witness: the amended statement on a one-waypoint input (the
degenerate branch with a nonempty list) and on the empty simple-tier
input. -/
theorem c9_witness :
    ([⟨0, 0, 0⟩] : List Waypoint) ≠ [] ∧
    ((amd_detect_trip_segments [⟨0, 0, 0⟩] 300 (fun _ => none)).all
      (fun s => decide (s.start_idx ≤ s.end_idx))) = true ∧
    ((md_detect_trip_segments [] 300).all
      (fun s => decide (s.start_idx ≤ s.end_idx))) = true :=
  ⟨by simp,
    (c9_amended [⟨0, 0, 0⟩] 300 (fun _ => none) (by simp)).1,
    (c9_amended [⟨0, 0, 0⟩] 300 (fun _ => none) (by simp)).2 [] 300⟩

/-- C10: `preprocess_data` is total with a fixed output shape: the
returned vector always has length len(FEATURE_COLUMNS); when feature
building raises internally the all-zeros vector of that shape is
returned; and when the scaler transform fails the UNSCALED vector is
returned rather than an error.  The only hypothesis concerns the
external trained scaler: a successful transform preserves vector length
(true of a fitted StandardScaler). -/
theorem c10_theorem (modelsLoaded : Bool)
    (scaler : List ℝ → Option (List ℝ)) (trip : FullTrip)
    (hs : ∀ v w, scaler v = some w → w.length = v.length) :
    (amd_preprocess_data modelsLoaded scaler trip).length =
      feature_columns.length ∧
    (∀ e, amd_build_features trip = .error e →
      amd_preprocess_data modelsLoaded scaler trip =
        List.replicate feature_columns.length 0) ∧
    (∀ feats, amd_build_features trip = .ok feats →
      scaler (feature_columns.map (fun f => (feats.lookup f).getD 0)) = none →
      amd_preprocess_data modelsLoaded scaler trip =
        feature_columns.map (fun f => (feats.lookup f).getD 0)) := by
  refine ⟨?_, ?_, ?_⟩
  · unfold amd_preprocess_data
    cases hbf : amd_build_features trip with
    | error e => simp
    | ok feats =>
        cases modelsLoaded with
        | false => simp
        | true =>
            cases hsv : scaler (feature_columns.map
                (fun f => (feats.lookup f).getD 0)) with
            | none => simp [hsv]
            | some w =>
                simp only [hsv, if_true]
                rw [hs _ w hsv]
                simp
  · intro e hbf
    unfold amd_preprocess_data
    rw [hbf]
  · intro feats hbf hsv
    unfold amd_preprocess_data
    rw [hbf]
    cases modelsLoaded with
    | false => rfl
    | true => simp [hsv]

/-- C10 witness: a trip with every field missing, a loaded model whose
scaler always fails: the vector is the unscaled default vector of length
11. -/
theorem c10_witness :
    (amd_preprocess_data true (fun _ => none)
      ⟨none, none, none, none, [], none, none⟩).length =
      feature_columns.length :=
  (c10_theorem true (fun _ => none) ⟨none, none, none, none, [], none, none⟩
    (fun _ _ h => by cases h)).1
